import Mathlib

/-!
Verification development for the plugin registry / event dispatch shim
(`twitchbot/modloader.py`) and the poll chat-command handlers
(`twitchbot/builtin_commands/poll_commands.py`).

The Python code is shallowly embedded: the process-wide `mods` dict becomes
an explicit association list threaded through the registry operations,
lifecycle callbacks and hook invocations become entries in an explicit log,
and exceptions become `Except` values whose catching is a `match`.
-/

namespace TwitchBot

/-! ## Mod loader (`modloader.py`) -/

/-- Behaviour of one mod's hook for one event name: the attribute is absent
(`getattr` falls back to `_missing_function`), or the coroutine returns
normally, or it raises an exception carrying a message. -/
inductive HookSpec
  | missing
  | ok
  | raises (msg : String)

/-- A mod, embedding the `Mod` class surface used by the loader: its `name`
attribute, the `can_register` / `can_unregister` capability properties, and
its event hooks keyed by attribute name (`event.value`). -/
structure Mod where
  name : String
  can_register : Bool
  can_unregister : Bool
  hooks : String → HookSpec

/-- The process-wide `mods: Dict[str, Mod]` registry as an insertion-ordered
association list. -/
abbrev Registry := List (String × Mod)

/-- `key in mods` on a Python dict. -/
def dictContains (d : Registry) (k : String) : Bool :=
  d.any (fun kv => kv.1 == k)

/-- `mods[key]` lookup (as an `Option`). -/
def dictLookup (d : Registry) (k : String) : Option Mod :=
  (d.find? (fun kv => kv.1 == k)).map (fun kv => kv.2)

/-- `mods[key] = value` on a Python dict: overwrite in place if the key is
present, otherwise append (insertion order). -/
def dictSet (d : Registry) (k : String) (v : Mod) : Registry :=
  if dictContains d k then
    d.map (fun kv => if kv.1 == k then (k, v) else kv)
  else
    d ++ [(k, v)]

/-- `del mods[key]` on a Python dict (other entries keep their order). -/
def dictDel (d : Registry) (k : String) : Registry :=
  d.filter (fun kv => kv.1 != k)

/-- Observable lifecycle side effects: the synchronous `mod.register()` and
`mod.unregister()` callbacks, recorded by the name of the mod invoked. -/
inductive LifecycleCall
  | registerCall (name : String)
  | unregisterCall (name : String)

/-- `register_mod(mod)`: returns the success flag, the updated registry, and
the lifecycle callbacks invoked. -/
def register_mod (mod : Mod) (mods : Registry) : Bool × Registry × List LifecycleCall :=
  if dictContains mods mod.name || !mod.can_register then
    (false, mods, [])
  else
    (true, dictSet mods mod.name mod, [LifecycleCall.registerCall mod.name])

/-- `unregister_mod(mod)`: returns the success flag, the updated registry,
and the lifecycle callbacks invoked. -/
def unregister_mod (mod : Mod) (mods : Registry) : Bool × Registry × List LifecycleCall :=
  if !mod.can_unregister then
    (false, mods, [])
  else if dictContains mods mod.name then
    (true, dictDel mods mod.name, [LifecycleCall.unregisterCall mod.name])
  else
    (false, mods, [])

/-- Awaiting `getattr(mod, event.value, _missing_function)(*args)`: a missing
hook is the no-op `_missing_function`; a present hook either returns or
raises. -/
def runHook : HookSpec → Except String Unit
  | HookSpec.missing => Except.ok ()
  | HookSpec.ok => Except.ok ()
  | HookSpec.raises m => Except.error m

/-- What `trigger_mod_event` did for one mod: the hook invocation completed,
or the exception it raised was caught and logged with the mod name, the
event and the error. -/
inductive HookLog
  | invoked (modName : String)
  | errorLogged (modName : String) (event : String) (err : String)

/-- The mod a log entry is about. -/
def HookLog.modName : HookLog → String
  | HookLog.invoked n => n
  | HookLog.errorLogged n _ _ => n

/-- `trigger_mod_event(event, *args)`: iterate over `mods.values()`, awaiting
each mod's hook inside `try/except`; the `except` arm is the `match` on the
hook's `Except` result, so a raising hook contributes a log entry and the
loop continues.  The result is the log of what happened per mod, in
iteration order. -/
def trigger_mod_event (event : String) : List Mod → List HookLog
  | [] => []
  | m :: rest =>
    (match runHook (m.hooks event) with
     | Except.ok _ => HookLog.invoked m.name
     | Except.error e => HookLog.errorLogged m.name event e) :: trigger_mod_event event rest

/-! ### Registry lemmas -/

theorem dictSet_absent (d : Registry) (k : String) (v : Mod)
    (h : dictContains d k = false) : dictSet d k v = d ++ [(k, v)] := by
  simp [dictSet, h]

theorem dictLookup_append_self (d : Registry) (k : String) (v : Mod)
    (h : dictContains d k = false) : dictLookup (d ++ [(k, v)]) k = some v := by
  induction d with
  | nil => simp [dictLookup]
  | cons kv rest ih =>
    simp only [dictContains, List.any_cons, Bool.or_eq_false_iff] at h
    simp only [dictLookup, List.cons_append, List.find?_cons, h.1]
    exact ih h.2

theorem dictLookup_append_other (d : Registry) (k k' : String) (v : Mod)
    (h : k' ≠ k) : dictLookup (d ++ [(k, v)]) k' = dictLookup d k' := by
  induction d with
  | nil => simp [dictLookup, beq_iff_eq, Ne.symm h]
  | cons kv rest ih =>
    by_cases hk : kv.1 = k'
    · simp [dictLookup, List.find?_cons, hk]
    · simp only [dictLookup, List.cons_append, List.find?_cons] at *
      rw [show (kv.1 == k') = false by simp [hk]] at *
      exact ih

theorem dictContains_del (d : Registry) (k : String) :
    dictContains (dictDel d k) k = false := by
  induction d with
  | nil => rfl
  | cons kv rest ih =>
    by_cases hk : kv.1 = k
    · simp only [dictDel, dictContains, List.filter_cons, hk, bne_self_eq_false,
        Bool.false_eq_true, if_false] at *
      exact ih
    · have hne : (kv.1 != k) = true := by simp [hk]
      simp only [dictDel, dictContains, List.filter_cons, hne, if_true, List.any_cons] at *
      simp [ih, hk]

theorem find?_filter_ne (l : List (String × Mod)) (k k' : String) (h : k' ≠ k) :
    List.find? (fun kv => kv.1 == k') (l.filter (fun kv => kv.1 != k)) =
      List.find? (fun kv => kv.1 == k') l := by
  induction l with
  | nil => rfl
  | cons kv rest ih =>
    by_cases hk : kv.1 = k
    · have h2 : (kv.1 == k') = false := by
        rw [hk]
        exact beq_eq_false_iff_ne.mpr (Ne.symm h)
      rw [List.find?_cons_of_neg _ (by simp [h2])]
      simp [List.filter_cons, hk, ih]
    · by_cases hk' : kv.1 = k'
      · simp [List.filter_cons, hk, hk', h]
      · simp [List.filter_cons, hk, hk', ih]

theorem dictLookup_del_other (d : Registry) (k k' : String) (h : k' ≠ k) :
    dictLookup (dictDel d k) k' = dictLookup d k' := by
  simp only [dictLookup, dictDel]
  rw [find?_filter_ne d k k' h]

/-! ### Claims C1 to C3 -/

/-- C1: `register_mod` returns `False`, leaves the registry unchanged and
invokes no lifecycle callback when the mod's name is already a key or its
`can_register` capability is false; otherwise it returns `True`, inserts the
mod under its name (other keys untouched), and invokes exactly its
`register` callback. -/
theorem register_mod_spec (mod : Mod) (mods : Registry) :
    ((dictContains mods mod.name = true ∨ mod.can_register = false) →
      register_mod mod mods = (false, mods, [])) ∧
    (dictContains mods mod.name = false → mod.can_register = true →
      (register_mod mod mods).1 = true ∧
      dictLookup (register_mod mod mods).2.1 mod.name = some mod ∧
      (∀ k, k ≠ mod.name → dictLookup (register_mod mod mods).2.1 k = dictLookup mods k) ∧
      (register_mod mod mods).2.2 = [LifecycleCall.registerCall mod.name]) := by
  constructor
  · intro h
    rcases h with h | h
    · simp [register_mod, h]
    · simp [register_mod, h]
  · intro h1 h2
    have hreg : register_mod mod mods =
        (true, dictSet mods mod.name mod, [LifecycleCall.registerCall mod.name]) := by
      simp [register_mod, h1, h2]
    rw [hreg]
    refine ⟨rfl, ?_, ?_, rfl⟩
    · rw [dictSet_absent mods mod.name mod h1]
      exact dictLookup_append_self mods mod.name mod h1
    · intro k hk
      rw [dictSet_absent mods mod.name mod h1]
      exact dictLookup_append_other mods mod.name k mod hk

/-- Closed witness for `register_mod_spec` at a concrete mod and registry. -/
theorem register_mod_spec_witness :
    let m : Mod := ⟨"m", true, true, fun _ => HookSpec.missing⟩
    register_mod m [] = (true, [("m", m)], [LifecycleCall.registerCall "m"]) ∧
    register_mod m [("m", m)] = (false, [("m", m)], []) := by
  have h1 := (register_mod_spec ⟨"m", true, true, fun _ => HookSpec.missing⟩ []).2
  have h2 := (register_mod_spec ⟨"m", true, true, fun _ => HookSpec.missing⟩
    [("m", ⟨"m", true, true, fun _ => HookSpec.missing⟩)]).1
  exact ⟨rfl, h2 (Or.inl rfl)⟩

/-- C2: `unregister_mod` returns `False` with the registry unchanged when
`can_unregister` is false; when `can_unregister` is true and the name is a
key, it removes that entry (other keys untouched), invokes the `unregister`
callback and returns `True`; when the name is absent it returns `False` with
the registry unchanged. -/
theorem unregister_mod_spec (mod : Mod) (mods : Registry) :
    (mod.can_unregister = false → unregister_mod mod mods = (false, mods, [])) ∧
    (mod.can_unregister = true → dictContains mods mod.name = true →
      (unregister_mod mod mods).1 = true ∧
      dictContains (unregister_mod mod mods).2.1 mod.name = false ∧
      (∀ k, k ≠ mod.name → dictLookup (unregister_mod mod mods).2.1 k = dictLookup mods k) ∧
      (unregister_mod mod mods).2.2 = [LifecycleCall.unregisterCall mod.name]) ∧
    (mod.can_unregister = true → dictContains mods mod.name = false →
      unregister_mod mod mods = (false, mods, [])) := by
  refine ⟨?_, ?_, ?_⟩
  · intro h
    simp [unregister_mod, h]
  · intro h1 h2
    have hun : unregister_mod mod mods =
        (true, dictDel mods mod.name, [LifecycleCall.unregisterCall mod.name]) := by
      simp [unregister_mod, h1, h2]
    rw [hun]
    exact ⟨rfl, dictContains_del mods mod.name,
      fun k hk => dictLookup_del_other mods mod.name k hk, rfl⟩
  · intro h1 h2
    simp [unregister_mod, h1, h2]

/-- Closed witness for `unregister_mod_spec` at concrete inputs. -/
theorem unregister_mod_spec_witness :
    let m : Mod := ⟨"m", true, true, fun _ => HookSpec.missing⟩
    unregister_mod m [("m", m)] = (true, [], [LifecycleCall.unregisterCall "m"]) ∧
    unregister_mod m [] = (false, [], []) := by
  have h1 := (unregister_mod_spec ⟨"m", true, true, fun _ => HookSpec.missing⟩
    [("m", ⟨"m", true, true, fun _ => HookSpec.missing⟩)]).2.1 rfl rfl
  have h2 := (unregister_mod_spec ⟨"m", true, true, fun _ => HookSpec.missing⟩ []).2.2 rfl rfl
  exact ⟨rfl, h2⟩

/-- C3: `trigger_mod_event` processes every registered mod in iteration
order whatever the hooks do (so a raising hook never aborts dispatch), a
raising hook is caught and contributes an error-log entry instead of
propagating, a returning hook and a missing hook are both a completed no-op
invocation, and dispatch distributes over concatenation of the mod list (the
mods after a raising one are dispatched exactly as they would be alone). -/
theorem trigger_mod_event_spec (event : String) :
    (∀ mods : List Mod,
      (trigger_mod_event event mods).map HookLog.modName = mods.map Mod.name) ∧
    (∀ l1 l2 : List Mod,
      trigger_mod_event event (l1 ++ l2) =
        trigger_mod_event event l1 ++ trigger_mod_event event l2) ∧
    (∀ m : Mod, ∀ msg : String, m.hooks event = HookSpec.raises msg →
      trigger_mod_event event [m] = [HookLog.errorLogged m.name event msg]) ∧
    (∀ m : Mod, m.hooks event = HookSpec.missing →
      trigger_mod_event event [m] = [HookLog.invoked m.name]) := by
  refine ⟨?_, ?_, ?_, ?_⟩
  · intro mods
    induction mods with
    | nil => rfl
    | cons m rest ih =>
      simp only [trigger_mod_event, List.map_cons, ih, List.cons.injEq, and_true]
      cases runHook (m.hooks event) <;> rfl
  · intro l1 l2
    induction l1 with
    | nil => rfl
    | cons m rest ih =>
      simp only [List.cons_append, trigger_mod_event]
      exact congrArg _ ih
  · intro m msg h
    simp [trigger_mod_event, runHook, h]
  · intro m h
    simp [trigger_mod_event, runHook, h]

/-- Closed witness for `trigger_mod_event_spec`: a raising mod between two
well-behaved mods is logged and the later mod is still dispatched. -/
theorem trigger_mod_event_spec_witness :
    let a : Mod := ⟨"a", true, true, fun _ => HookSpec.ok⟩
    let b : Mod := ⟨"b", true, true, fun _ => HookSpec.raises "boom"⟩
    let c : Mod := ⟨"c", true, true, fun _ => HookSpec.missing⟩
    (trigger_mod_event "on_connected" [a, b, c]).map HookLog.modName = ["a", "b", "c"] ∧
    trigger_mod_event "on_connected" [b] = [HookLog.errorLogged "b" "on_connected" "boom"] ∧
    trigger_mod_event "on_connected" [c] = [HookLog.invoked "c"] := by
  refine ⟨(trigger_mod_event_spec "on_connected").1 _, ?_, ?_⟩
  · exact (trigger_mod_event_spec "on_connected").2.2.1 _ "boom" rfl
  · exact (trigger_mod_event_spec "on_connected").2.2.2 _ rfl

/-! ## Poll commands (`builtin_commands/poll_commands.py`)

### Python string primitives -/

/-- Python `\s` / `str.strip` whitespace: space, tab, newline, carriage
return, vertical tab, form feed. -/
def pyIsSpace (c : Char) : Bool :=
  c == ' ' || c == '\t' || c == '\n' || c == '\r' || c == Char.ofNat 11 || c == Char.ofNat 12

/-- Python `str.isdigit` (over the ASCII strings these commands receive):
true iff the string is nonempty and every character is a digit. -/
def str_isdigit (s : String) : Bool :=
  !s.data.isEmpty && s.data.all Char.isDigit

/-- Python `int(s)` on an all-digit string. -/
def digitsToNat (s : String) : Nat :=
  s.data.foldl (fun n c => 10 * n + (c.toNat - 48)) 0

/-- Python `str.strip()`: drop leading and trailing whitespace. -/
def pyStrip (s : String) : String :=
  String.mk (((s.data.dropWhile pyIsSpace).reverse.dropWhile pyIsSpace).reverse)

/-- Python `s.split(sep)` for a one-character separator: splitting keeps
empty pieces, and the empty string yields one empty piece. -/
def pySplitChar (sep : Char) : List Char → List String
  | [] => [""]
  | c :: rest =>
    match pySplitChar sep rest with
    | [] => [""]
    | t :: ts =>
      if c == sep then "" :: t :: ts
      else String.mk (c :: t.data) :: ts

/-- Python `sep.join(items)`. -/
def joinSep (sep : String) : List String → String
  | [] => ""
  | [a] => a
  | a :: b :: rest => a ++ sep ++ joinSep sep (b :: rest)

/-! ### The poll subsystem surface the handlers call

`PollData` and the lookup helpers live outside this excerpt
(`twitchbot/poll.py`); the fields and operations below model exactly the
contract the spec states for them. -/

/-- Modelled from the spec: a poll has an id, title, ordered list of
choices, a deadline (creation-time duration and remaining seconds), and a
mapping from voter to chosen choice index, here an insertion-ordered list of
(voter, choice) pairs. -/
structure PollData where
  id : Nat
  channel : String
  author : String
  title : String
  seconds : Rat
  choices : List String
  votes : List (String × Nat)
  seconds_left : Nat
deriving DecidableEq

/-- Modelled from the spec: `has_already_voted(user)` — whether the user
appears in the poll's voter-to-choice mapping. -/
def has_already_voted (p : PollData) (user : String) : Bool :=
  p.votes.any (fun v => v.1 == user)

/-- Modelled from the spec: `add_vote(user, choice)` — record the user's
chosen choice index. -/
def add_vote (p : PollData) (user : String) (choice : Nat) : PollData :=
  { p with votes := p.votes ++ [(user, choice)] }

/-- Modelled from the spec: `is_valid_vote(id)` — the choice id is within
the poll's valid range of choice ids (1-based). -/
def is_valid_vote (p : PollData) (choice : Nat) : Bool :=
  1 ≤ choice && choice ≤ p.choices.length

/-- Modelled from the spec: `format_choices()` — a human-readable rendering
of the numbered choices. -/
def format_choices (p : PollData) : String :=
  joinSep ", " (p.choices.enum.map (fun ic => toString (ic.1 + 1) ++ ": " ++ ic.2))

/-- Modelled from the spec: `get_channel_poll_by_id(channel, id)` — find the
poll with the given id among the channel's active polls (the handlers are
always given the invoking channel's active-poll list). -/
def get_channel_poll_by_id (polls : List PollData) (pid : Nat) : Option PollData :=
  polls.find? (fun p => p.id == pid)

/-- Number of votes a given user has recorded in a poll. -/
def countVotesBy (p : PollData) (user : String) : Nat :=
  (p.votes.filter (fun v => v.1 == user)).length

/-- `_cast_to_int_or_error(value)`: raise `InvalidArgumentsError` unless the
value `isdigit`, else convert with `int`. -/
def _cast_to_int_or_error (value : String) : Except String Nat :=
  if !str_isdigit value then
    Except.error (value ++ " is not a valid number")
  else
    Except.ok (digitsToNat value)

/-! ### The poll regex

`RE_POLL_INFO = re.compile(r'(?P<title>.+)\[(?P<options>[\w\d\s,]+)]\s*(?P<time>[0-9.]*)')`

`re.search` is embedded directly for this fixed pattern: the earliest start
position wins, and the greedy `.+` makes the chosen `[` the rightmost one
(after a nonempty, newline-free title run) whose tail matches
`[\w\d\s,]+]\s*[0-9.]*`. -/

/-- A character of the `[\w\d\s,]` options class (`\w` over ASCII is
letters, digits and underscore). -/
def isOptionChar (c : Char) : Bool :=
  c.isAlphanum || c == '_' || pyIsSpace c || c == ','

/-- A character of the `[0-9.]` time class. -/
def isTimeChar (c : Char) : Bool :=
  c.isDigit || c == '.'

/-- Match `[\w\d\s,]+]\s*[0-9.]*` against the characters that follow a `[`:
the options run must be nonempty and be closed by `]`; the greedy `\s*` and
`[0-9.]*` then take maximal runs.  Returns the `options` and `time` group
texts. -/
def matchAfterBracket (l : List Char) : Option (String × String) :=
  let run := l.takeWhile isOptionChar
  if run.isEmpty then none
  else
    match l.drop run.length with
    | ']' :: rest =>
      let afterWs := rest.dropWhile pyIsSpace
      some (String.mk run, String.mk (afterWs.takeWhile isTimeChar))
    | _ => none

/-- Whether index `k` can be the `[` of a match whose `.+` starts at `i`:
`k` lies after a nonempty newline-free title run from `i`, holds `[`, and
the remaining pattern matches after it. -/
def bracketOk (cs : List Char) (i k : Nat) : Bool :=
  decide (i < k) && (cs.getD k ' ' == '[') &&
    ((cs.drop i).take (k - i)).all (fun c => c != '\n') &&
    (matchAfterBracket (cs.drop (k + 1))).isSome

/-- Try to match the whole pattern with the `.+` group starting at `i`: the
greedy `.+` backtracks from the right, so the rightmost viable `[` is
taken. -/
def matchFromStart (cs : List Char) (i : Nat) : Option (String × String × String) :=
  match ((List.range cs.length).filter (bracketOk cs i)).getLast? with
  | none => none
  | some k =>
    (matchAfterBracket (cs.drop (k + 1))).map
      (fun ot => (String.mk ((cs.drop i).take (k - i)), ot.1, ot.2))

/-- `RE_POLL_INFO.search(s)`: the match at the earliest viable start
position, yielding the `title`, `options` and `time` group texts. -/
def RE_POLL_INFO_search (s : String) : Option (String × String × String) :=
  (List.range s.data.length).findSome? (matchFromStart s.data)

/-- Python `float(value)` on the strings the `time` group can hold (digits
and dots): defined iff there is at least one digit and at most one dot. -/
def parseFloatDigitsDot (s : String) : Option Rat :=
  let cs := s.data
  if !cs.all isTimeChar then none
  else if !cs.any Char.isDigit then none
  else
    match cs.count '.' with
    | 0 => some (digitsToNat s : Rat)
    | 1 =>
      let intPart := cs.takeWhile (fun c => c != '.')
      let fracPart := (cs.dropWhile (fun c => c != '.')).drop 1
      some ((digitsToNat (String.mk intPart) : Rat) +
        (digitsToNat (String.mk fracPart) : Rat) / ((10 : Rat) ^ fracPart.length))
    | _ => none

/-- `_try_parse_float(value, default)`: `float(value)` with `ValueError`
falling back to the default. -/
def _try_parse_float (value : String) (default : Rat) : Rat :=
  (parseFloatDigitsDot value).getD default

/-- `_parse_poll_data(msg)`: run the regex search over the message text; on
failure return `None`, otherwise build the `PollData` from the stripped
title, the comma-split stripped options and the parsed duration (defaulting
to 30; the pattern always has exactly 3 groups, so the
`len(match.groups()) == 3` guard is always taken). -/
def _parse_poll_data (text channel author : String) : Option PollData :=
  match RE_POLL_INFO_search text with
  | none => none
  | some (title, options, time) =>
    some { id := 0, channel := channel, author := author,
           title := pyStrip title,
           seconds := _try_parse_float time 30,
           choices := (pySplitChar ',' options.data).map pyStrip,
           votes := [], seconds_left := 0 }

/-! ### Command handlers

Replies and raised `InvalidArgumentsError`s become explicit outcome values;
`cfg.prefix` and `msg.mention` are threaded in as parameters (`pfx`,
`mention`).  Each handler is given its channel's active-poll list (the
result of `get_active_channel_polls(msg.channel_name)`, whose length is
`get_active_channel_poll_count`). -/

/-- Used for `polls[0]` under a guard that the list is nonempty. -/
def defaultPoll : PollData := ⟨0, "", "", "", 0, [], [], 0⟩

/-- `polls[0]` (only evaluated when a length guard holds). -/
def headPoll (polls : List PollData) : PollData := polls.headD defaultPoll

/-- How the poll-resolution block of a handler ends: an
`InvalidArgumentsError`, an early `msg.reply(...)` + `return`, or a resolved
poll. -/
inductive ResolveResult
  | exitInvalid (reason : String)
  | exitReply (text : String)
  | found (p : PollData)
deriving DecidableEq

/-- The poll-resolution block of `cmd_vote` (the zero / one / multiple
active-poll cases, including the `len(args) != 2` reply and the
`_cast_to_int_or_error` + `get_channel_poll_by_id` path). -/
def vote_resolve_poll (pfx mention : String) (polls : List PollData)
    (choice : String) (args : List String) : ResolveResult :=
  if polls.length == 0 then
    ResolveResult.exitReply "there are NOT any active polls running right now to vote for"
  else if polls.length == 1 then
    ResolveResult.found (headPoll polls)
  else if args.length != 2 then
    ResolveResult.exitReply (mention ++
      " there are multiple polls active, please specify the poll id, example: " ++
      pfx ++ "vote " ++ choice ++ " <POLL_ID>")
  else
    match _cast_to_int_or_error (args.getD 1 "") with
    | Except.error r => ResolveResult.exitInvalid r
    | Except.ok pid =>
      match get_channel_poll_by_id polls pid with
      | none => ResolveResult.exitInvalid ("Could not find poll by ID " ++ toString pid)
      | some p => ResolveResult.found p

/-- A handler invocation's visible outcome: a raised
`InvalidArgumentsError`, a reply, the silent already-voted return, or a
recorded vote. -/
inductive HandlerOutcome
  | invalidArgs (reason : String)
  | reply (text : String)
  | alreadyVoted
  | voted (voter : String) (choice : Nat)
deriving DecidableEq

/-- `cmd_vote(msg, *args)`: returns the outcome and the channel's poll list
afterwards (`poll.add_vote` mutates the resolved poll in place, embedded as
an id-keyed map over the list). -/
def cmd_vote (pfx mention author : String) (polls : List PollData)
    (args : List String) : HandlerOutcome × List PollData :=
  match args with
  | [] =>
    (HandlerOutcome.invalidArgs
      "missing required vote arguments, must provide the id of the choice you want to vote for",
     polls)
  | choice :: _ =>
    match vote_resolve_poll pfx mention polls choice args with
    | ResolveResult.exitInvalid r => (HandlerOutcome.invalidArgs r, polls)
    | ResolveResult.exitReply t => (HandlerOutcome.reply t, polls)
    | ResolveResult.found poll =>
      if !str_isdigit choice then
        (HandlerOutcome.invalidArgs (choice ++ " is not a valid number"), polls)
      else
        let c := digitsToNat choice
        if !is_valid_vote poll c then
          (HandlerOutcome.reply (toString c ++ " is not a valid choice id for poll#" ++
            toString poll.id ++ ", choices are: " ++ format_choices poll), polls)
        else if has_already_voted poll author then
          (HandlerOutcome.alreadyVoted, polls)
        else
          (HandlerOutcome.voted author c,
           polls.map (fun q => if q.id == poll.id then add_vote q author c else q))

/-- The poll-resolution block of `cmd_poll_info` (zero-poll reply,
multiple-polls-without-id `InvalidArgumentsError`, single-poll implicit
target, and the `isdigit` + `get_channel_poll_by_id` path on `args[0]`). -/
def info_resolve_poll (pfx : String) (polls : List PollData)
    (args : List String) : ResolveResult :=
  if polls.length == 0 then
    ResolveResult.exitReply "there are not any polls active right now"
  else if polls.length > 1 && args.isEmpty then
    ResolveResult.exitInvalid
      ("multiple polls are running, the poll id is required to be passed, example: " ++
        pfx ++ "pollinfo <POLL_ID>")
  else if polls.length == 1 then
    ResolveResult.found (headPoll polls)
  else
    let a0 := args.headD ""
    if !str_isdigit a0 then
      ResolveResult.exitInvalid (a0 ++ " is not valid number")
    else
      match get_channel_poll_by_id polls (digitsToNat a0) with
      | none => ResolveResult.exitInvalid ("could not find any poll by ID " ++ a0)
      | some p => ResolveResult.found p

/-- `cmd_poll_info(msg, *args)`. -/
def cmd_poll_info (pfx : String) (polls : List PollData)
    (args : List String) : HandlerOutcome :=
  match info_resolve_poll pfx polls args with
  | ResolveResult.exitInvalid r => HandlerOutcome.invalidArgs r
  | ResolveResult.exitReply t => HandlerOutcome.reply t
  | ResolveResult.found poll =>
    HandlerOutcome.reply ("POLL INFO #" ++ toString poll.id ++ " - title: \"" ++
      poll.title ++ "\" - choices: " ++ format_choices poll ++
      " - seconds left: " ++ toString poll.seconds_left)

/-- One listing entry of `cmd_list_polls`. -/
def pollEntry (p : PollData) : String :=
  toString p.id ++ " -> \"" ++ p.title ++ "\""

/-- `cmd_list_polls(msg, *args)`: the reply text. -/
def cmd_list_polls (polls : List PollData) : String :=
  joinSep " | " (polls.map pollEntry)

/-- The kind of outcome a resolution block produced. -/
inductive ResolveKind
  | foundPoll
  | userReply
  | invalidArguments
deriving DecidableEq

/-- Classify a resolution result by outcome kind. -/
def resolveKind : ResolveResult → ResolveKind
  | ResolveResult.exitInvalid _ => ResolveKind.invalidArguments
  | ResolveResult.exitReply _ => ResolveKind.userReply
  | ResolveResult.found _ => ResolveKind.foundPoll

/-- Whether a handler outcome is a raised `InvalidArgumentsError`. -/
def isInvalidArgs : HandlerOutcome → Bool
  | HandlerOutcome.invalidArgs _ => true
  | _ => false

/-- Whether a handler outcome is a plain reply. -/
def isReply : HandlerOutcome → Bool
  | HandlerOutcome.reply _ => true
  | _ => false

/-! ### Concrete polls used by witnesses and counterexamples -/

/-- A sample active poll with id 1 and two choices. -/
def samplePoll1 : PollData := ⟨1, "ch", "bob", "poll one", 30, ["a", "b"], [], 10⟩

/-- A sample active poll with id 2 and two choices. -/
def samplePoll2 : PollData := ⟨2, "ch", "bob", "poll two", 30, ["c", "d"], [], 10⟩

/-! ### Claims C4 to C10 -/

/-- C4: a poll/choice id string is accepted (and converted by `int`) exactly
when it is a nonempty all-digit string; `"-1"` and `"1.5"` are rejected with
the invalid-arguments error, both by `_cast_to_int_or_error` and by the vote
and poll-info handlers. -/
theorem cast_to_int_spec :
    (∀ s : String, (∃ n, _cast_to_int_or_error s = Except.ok n) ↔
      (s.data ≠ [] ∧ ∀ c ∈ s.data, c.isDigit = true)) ∧
    (∀ s : String, str_isdigit s = true →
      _cast_to_int_or_error s = Except.ok (digitsToNat s)) ∧
    (_cast_to_int_or_error "-1" = Except.error "-1 is not a valid number") ∧
    (_cast_to_int_or_error "1.5" = Except.error "1.5 is not a valid number") ∧
    ((cmd_vote "!" "@u" "alice" [samplePoll1] ["-1"]).1 =
      HandlerOutcome.invalidArgs "-1 is not a valid number") ∧
    ((cmd_vote "!" "@u" "alice" [samplePoll1] ["1.5"]).1 =
      HandlerOutcome.invalidArgs "1.5 is not a valid number") ∧
    ((cmd_vote "!" "@u" "alice" [samplePoll1, samplePoll2] ["1", "-1"]).1 =
      HandlerOutcome.invalidArgs "-1 is not a valid number") ∧
    (cmd_poll_info "!" [samplePoll1, samplePoll2] ["-1"] =
      HandlerOutcome.invalidArgs "-1 is not valid number") ∧
    (cmd_poll_info "!" [samplePoll1, samplePoll2] ["1.5"] =
      HandlerOutcome.invalidArgs "1.5 is not valid number") := by
  refine ⟨?_, ?_, rfl, rfl, rfl, rfl, rfl, rfl, rfl⟩
  · intro s
    by_cases h : str_isdigit s = true
    · have hs := h
      simp only [str_isdigit, Bool.and_eq_true, Bool.not_eq_true',
        List.isEmpty_eq_false, List.all_eq_true] at hs
      simp only [_cast_to_int_or_error, h, Bool.not_true, Bool.false_eq_true, if_false]
      exact ⟨fun _ => ⟨hs.1, hs.2⟩, fun _ => ⟨digitsToNat s, rfl⟩⟩
    · have hf : str_isdigit s = false := by
        cases hv : str_isdigit s
        · rfl
        · exact absurd hv h
      have hs := hf
      simp only [str_isdigit, Bool.and_eq_false_iff, Bool.not_eq_false',
        List.isEmpty_iff, List.all_eq_false] at hs
      simp only [_cast_to_int_or_error, hf, Bool.not_false, if_true]
      constructor
      · rintro ⟨n, hn⟩
        exact absurd hn (by simp)
      · rintro ⟨h1, h2⟩
        rcases hs with hs | hs
        · exact absurd hs h1
        · rcases hs with ⟨c, hc, hcd⟩
          exact absurd (h2 c hc) hcd
  · intro s h
    simp [_cast_to_int_or_error, h]

/-- Closed witness for `cast_to_int_spec`: the all-digit string `"123"` is
accepted and converted. -/
theorem cast_to_int_spec_witness :
    _cast_to_int_or_error "123" = Except.ok 123 :=
  cast_to_int_spec.2.1 "123" rfl

/-- C5 counterexample: with two active polls and the poll-id argument
absent, `cmd_vote` replies to the user and returns — it does not raise the
invalid-arguments error the claim requires. -/
theorem cmd_vote_absent_id_counterexample :
    (cmd_vote "!" "@u" "alice" [samplePoll1, samplePoll2] ["1"]).1 =
      HandlerOutcome.reply
        "@u there are multiple polls active, please specify the poll id, example: !vote 1 <POLL_ID>" ∧
    isInvalidArgs (cmd_vote "!" "@u" "alice" [samplePoll1, samplePoll2] ["1"]).1 = false :=
  ⟨rfl, rfl⟩

/-- C5 amended: with more than one active poll `cmd_vote` requires a second
poll-id argument, but when that argument is absent it replies with a usage
message and returns (registry of polls unchanged); it raises the
invalid-arguments error only when the id is non-numeric or no poll matches
it. -/
theorem cmd_vote_multiple_polls_spec (pfx mention author choice idArg : String)
    (p q : PollData) (rest : List PollData) :
    ((cmd_vote pfx mention author (p :: q :: rest) [choice]).1 =
      HandlerOutcome.reply (mention ++
        " there are multiple polls active, please specify the poll id, example: " ++
        pfx ++ "vote " ++ choice ++ " <POLL_ID>") ∧
     (cmd_vote pfx mention author (p :: q :: rest) [choice]).2 = p :: q :: rest) ∧
    (str_isdigit idArg = false →
      (cmd_vote pfx mention author (p :: q :: rest) [choice, idArg]).1 =
        HandlerOutcome.invalidArgs (idArg ++ " is not a valid number")) ∧
    (str_isdigit idArg = true →
      get_channel_poll_by_id (p :: q :: rest) (digitsToNat idArg) = none →
      (cmd_vote pfx mention author (p :: q :: rest) [choice, idArg]).1 =
        HandlerOutcome.invalidArgs ("Could not find poll by ID " ++
          toString (digitsToNat idArg))) := by
  refine ⟨⟨?_, ?_⟩, ?_, ?_⟩
  · simp [cmd_vote, vote_resolve_poll]
  · simp [cmd_vote, vote_resolve_poll]
  · intro h
    simp [cmd_vote, vote_resolve_poll, _cast_to_int_or_error, h]
  · intro h1 h2
    simp [cmd_vote, vote_resolve_poll, _cast_to_int_or_error, h1, h2]

/-- Closed witness for `cmd_vote_multiple_polls_spec`: a numeric but
unmatched poll id raises the invalid-arguments error. -/
theorem cmd_vote_multiple_polls_spec_witness :
    (cmd_vote "!" "@u" "alice" [samplePoll1, samplePoll2] ["1", "9"]).1 =
      HandlerOutcome.invalidArgs "Could not find poll by ID 9" :=
  (cmd_vote_multiple_polls_spec "!" "@u" "alice" "1" "9" samplePoll1 samplePoll2 []).2.2
    rfl rfl

/-- C6: when the resolved poll reports the author has already voted,
`cmd_vote` returns silently with the poll list unchanged; a fresh voter's
vote is recorded once and a second attempt is a silent no-op, leaving the
voter with exactly one recorded vote. -/
theorem cmd_vote_already_voted_spec (pfx mention author choice : String)
    (polls : List PollData) (rest : List String) (p : PollData)
    (hdigit : str_isdigit choice = true)
    (hvalid : is_valid_vote p (digitsToNat choice) = true) :
    (vote_resolve_poll pfx mention polls choice (choice :: rest) = ResolveResult.found p →
      has_already_voted p author = true →
      cmd_vote pfx mention author polls (choice :: rest) =
        (HandlerOutcome.alreadyVoted, polls)) ∧
    (has_already_voted p author = false →
      cmd_vote pfx mention author [p] [choice] =
        (HandlerOutcome.voted author (digitsToNat choice),
         [add_vote p author (digitsToNat choice)]) ∧
      cmd_vote pfx mention author [add_vote p author (digitsToNat choice)] [choice] =
        (HandlerOutcome.alreadyVoted, [add_vote p author (digitsToNat choice)]) ∧
      countVotesBy (add_vote p author (digitsToNat choice)) author = 1) := by
  constructor
  · intro hres hvoted
    simp [cmd_vote, hres, hdigit, hvalid, hvoted]
  · intro hnew
    have hres1 : vote_resolve_poll pfx mention [p] choice [choice] =
        ResolveResult.found p := by
      simp [vote_resolve_poll, headPoll]
    have hres2 : vote_resolve_poll pfx mention
        [add_vote p author (digitsToNat choice)] choice [choice] =
        ResolveResult.found (add_vote p author (digitsToNat choice)) := by
      simp [vote_resolve_poll, headPoll]
    have hvalid2 : is_valid_vote (add_vote p author (digitsToNat choice))
        (digitsToNat choice) = true := by
      simpa [is_valid_vote, add_vote] using hvalid
    have hvoted2 : has_already_voted (add_vote p author (digitsToNat choice)) author =
        true := by
      simp [has_already_voted, add_vote]
    have hcount0 : countVotesBy p author = 0 := by
      simp only [has_already_voted, List.any_eq_false] at hnew
      simp only [countVotesBy, List.length_eq_zero, List.filter_eq_nil_iff]
      exact hnew
    refine ⟨?_, ?_, ?_⟩
    · simp [cmd_vote, hres1, hdigit, hvalid, hnew]
    · simp [cmd_vote, hres2, hdigit, hvalid2, hvoted2]
    · simp [countVotesBy, add_vote, List.filter_append, hcount0]
      simp only [countVotesBy] at hcount0
      simpa using hcount0

/-- Closed witness for `cmd_vote_already_voted_spec`: a fresh voter on the
single active poll votes once; the second identical invocation is silent and
the recorded-vote count stays 1. -/
theorem cmd_vote_already_voted_spec_witness :
    cmd_vote "!" "@u" "alice" [samplePoll1] ["1"] =
      (HandlerOutcome.voted "alice" 1, [add_vote samplePoll1 "alice" 1]) ∧
    cmd_vote "!" "@u" "alice" [add_vote samplePoll1 "alice" 1] ["1"] =
      (HandlerOutcome.alreadyVoted, [add_vote samplePoll1 "alice" 1]) ∧
    countVotesBy (add_vote samplePoll1 "alice" 1) "alice" = 1 :=
  (cmd_vote_already_voted_spec "!" "@u" "alice" "1" [samplePoll1] []
    samplePoll1 rfl rfl).2 rfl

theorem matchFromStart_eq_none (cs : List Char) (h : ∀ c ∈ cs, c ≠ '[') (i : Nat) :
    matchFromStart cs i = none := by
  have hfilter : (List.range cs.length).filter (bracketOk cs i) = [] := by
    rw [List.filter_eq_nil_iff]
    intro k hk
    have hklen : k < cs.length := List.mem_range.mp hk
    have hne : cs[k]?.getD ' ' ≠ '[' := by
      rw [List.getElem?_eq_getElem hklen, Option.getD_some]
      exact h _ (List.getElem_mem hklen)
    simp [bracketOk]
    intro _ hc _
    exact absurd hc hne
  simp [matchFromStart, hfilter]

/-- C7: the poll text `"eat pizza [cheese, pepperoni] 60"` parses to title
`"eat pizza"`, choices `["cheese", "pepperoni"]` and duration 60; any parsed
input whose time group is not a valid float gets the default duration 30;
and any input with no `[` (hence no bracketed choice list) fails to parse
and yields no poll data. -/
theorem parse_poll_data_spec :
    ((_parse_poll_data "eat pizza [cheese, pepperoni] 60" "ch" "bob").map
      (fun p => (p.title, p.choices, p.seconds)) =
      some ("eat pizza", ["cheese", "pepperoni"], (60 : Rat))) ∧
    (∀ text channel author title options time,
      RE_POLL_INFO_search text = some (title, options, time) →
      parseFloatDigitsDot time = none →
      (_parse_poll_data text channel author).map (fun p => p.seconds) =
        some (30 : Rat)) ∧
    (∀ text channel author, (∀ c ∈ text.data, c ≠ '[') →
      _parse_poll_data text channel author = none) := by
  refine ⟨?_, ?_, ?_⟩
  · have hsearch : RE_POLL_INFO_search "eat pizza [cheese, pepperoni] 60" =
        some ("eat pizza ", "cheese, pepperoni", "60") := rfl
    simp [_parse_poll_data, hsearch, _try_parse_float]
    refine ⟨?_, ?_, ?_⟩ <;> rfl
  · intro text channel author title options time h1 h2
    simp [_parse_poll_data, h1, _try_parse_float, h2]
  · intro text channel author h
    have hsearch : RE_POLL_INFO_search text = none := by
      simp only [RE_POLL_INFO_search]
      rw [List.findSome?_eq_none_iff]
      intro i hi
      exact matchFromStart_eq_none text.data h i
    simp [_parse_poll_data, hsearch]

/-- Closed witness for `parse_poll_data_spec`: an input with no numeric
duration defaults to 30, and an input without brackets yields no poll. -/
theorem parse_poll_data_spec_witness :
    (_parse_poll_data "a [b]" "ch" "bob").map (fun p => p.seconds) = some (30 : Rat) ∧
    _parse_poll_data "no brackets" "ch" "bob" = none := by
  constructor
  · exact parse_poll_data_spec.2.1 "a [b]" "ch" "bob" "a " "b" "" rfl rfl
  · exact parse_poll_data_spec.2.2 "no brackets" "ch" "bob" (by decide)

/-- C8 counterexample: with two active polls and the id argument absent, the
vote handler's resolution replies to the user while the poll-info handler's
resolution raises the invalid-arguments error — different outcome kinds, so
the two handlers do not share the claimed resolution behaviour. -/
theorem resolve_kind_counterexample :
    resolveKind (vote_resolve_poll "!" "@u" [samplePoll1, samplePoll2] "1" ["1"]) =
      ResolveKind.userReply ∧
    resolveKind (info_resolve_poll "!" [samplePoll1, samplePoll2] []) =
      ResolveKind.invalidArguments ∧
    ResolveKind.userReply ≠ ResolveKind.invalidArguments :=
  ⟨rfl, rfl, by decide⟩

/-- C8 amended: the two handlers resolve their target poll the same way —
zero active polls gives a user reply in both, a single active poll is
targeted implicitly by both, and with multiple polls and an id argument
supplied both produce the same outcome kind (non-numeric and unmatched ids
are invalid-arguments errors in both) — except that an absent id with
multiple polls makes the vote handler reply while the poll-info handler
raises the invalid-arguments error. -/
theorem resolve_kind_amended (pfx mention choice idArg : String)
    (p q : PollData) (rest : List PollData) (voteArgs infoArgs : List String) :
    (resolveKind (vote_resolve_poll pfx mention [] choice voteArgs) =
      ResolveKind.userReply ∧
     resolveKind (info_resolve_poll pfx [] infoArgs) = ResolveKind.userReply) ∧
    (vote_resolve_poll pfx mention [p] choice voteArgs = ResolveResult.found p ∧
     info_resolve_poll pfx [p] infoArgs = ResolveResult.found p) ∧
    (resolveKind (vote_resolve_poll pfx mention (p :: q :: rest) choice [choice, idArg]) =
      resolveKind (info_resolve_poll pfx (p :: q :: rest) [idArg])) ∧
    (resolveKind (vote_resolve_poll pfx mention (p :: q :: rest) choice [choice]) =
      ResolveKind.userReply ∧
     resolveKind (info_resolve_poll pfx (p :: q :: rest) []) =
      ResolveKind.invalidArguments) := by
  refine ⟨⟨rfl, rfl⟩, ⟨?_, ?_⟩, ?_, ?_, ?_⟩
  · simp [vote_resolve_poll, headPoll]
  · cases infoArgs <;> simp [info_resolve_poll, headPoll]
  · by_cases h : str_isdigit idArg = true
    · cases hfind : get_channel_poll_by_id (p :: q :: rest) (digitsToNat idArg) with
      | none =>
        simp [vote_resolve_poll, info_resolve_poll, _cast_to_int_or_error, h, hfind,
          resolveKind]
      | some found =>
        simp [vote_resolve_poll, info_resolve_poll, _cast_to_int_or_error, h, hfind,
          resolveKind]
    · have hf : str_isdigit idArg = false := by
        cases hv : str_isdigit idArg
        · rfl
        · exact absurd hv h
      simp [vote_resolve_poll, info_resolve_poll, _cast_to_int_or_error, hf, resolveKind]
  · simp [vote_resolve_poll, resolveKind]
  · simp [info_resolve_poll, resolveKind]

/-- C9: the list-polls reply is the pipe-delimited join of
`id -> "title"` entries over the channel's active polls, in order, and in
particular the empty string when no poll is active. -/
theorem cmd_list_polls_spec :
    cmd_list_polls [] = "" ∧
    (∀ p : PollData, cmd_list_polls [p] = pollEntry p) ∧
    (∀ (p : PollData) (ps : List PollData), ps ≠ [] →
      cmd_list_polls (p :: ps) = pollEntry p ++ " | " ++ cmd_list_polls ps) ∧
    cmd_list_polls [samplePoll1, samplePoll2] =
      "1 -> \"poll one\" | 2 -> \"poll two\"" := by
  refine ⟨rfl, fun p => rfl, ?_, rfl⟩
  intro p ps h
  cases ps with
  | nil => exact absurd rfl h
  | cons q t => rfl

/-- Closed witness for `cmd_list_polls_spec` on a two-poll channel. -/
theorem cmd_list_polls_spec_witness :
    cmd_list_polls [samplePoll1, samplePoll2] =
      pollEntry samplePoll1 ++ " | " ++ cmd_list_polls [samplePoll2] :=
  cmd_list_polls_spec.2.2.1 samplePoll1 [samplePoll2] (by simp)

/-- C10: with exactly one active poll, both handlers target it and ignore
any extra poll-id argument entirely: the invocation is identical to one
without the extra argument, so even a non-numeric or unmatched extra
argument changes nothing. -/
theorem single_poll_ignores_extra_args (pfx mention author choice : String)
    (p : PollData) (rest : List String) (infoArgs : List String) :
    cmd_vote pfx mention author [p] (choice :: rest) =
      cmd_vote pfx mention author [p] [choice] ∧
    cmd_poll_info pfx [p] infoArgs = cmd_poll_info pfx [p] [] := by
  constructor
  · rfl
  · cases infoArgs <;> rfl

end TwitchBot
